import Mathlib

/-!
Shallow embedding of the core of a server-side feature-flag SDK:
the spec store's `_process` snapshot replacement, diagnostics sampling
rates, the `initReason` lifecycle, the error boundary, the exception-report
deduplication, the ID-list ranged-fetch bookkeeping, the sync-timer
watchdog, and the (spec-modelled) rule evaluator.

JavaScript numbers that can be `NaN` are embedded as `Option Int`
(`none` = `NaN`); plain machine numbers used by the store (timestamps,
byte counts, sampling rates) are embedded as `Int`.  JavaScript objects
used as string-keyed records are embedded as association lists with
replace-on-assign semantics.
-/

/-- A JSON value, as far as the store and evaluator inspect one. -/
inductive JVal where
  | null : JVal
  | bool : Bool → JVal
  | num : Int → JVal
  | str : String → JVal
  | arr : List JVal → JVal
  | obj : List (String × JVal) → JVal

/-- JavaScript object assignment `m[k] = v`: replace the existing entry
for `k` or append a new one. -/
def recSet (m : List (String × α)) (k : String) (v : α) : List (String × α) :=
  if m.any (fun p => p.1 == k) then
    m.map (fun p => if p.1 == k then (k, v) else p)
  else
    m ++ [(k, v)]

/-- JavaScript property read `m[k] ?? null`. -/
def recGet (m : List (String × α)) (k : String) : Option α :=
  (m.find? (fun p => p.1 == k)).map (fun p => p.2)

/-- JavaScript `delete m[k]`. -/
def recDelete (m : List (String × α)) (k : String) : List (String × α) :=
  m.filter (fun p => !(p.1 == k))

/-- A parsed rule condition (ConfigSpec.ts is not under src; shape follows
the spec's data model and the repository test's literals). -/
structure Condition where
  ctype : String
  targetValue : JVal := JVal.null
  operator : Option String := none
  field : Option String := none

/-- A parsed rule of a ConfigSpec. -/
structure Rule where
  name : String
  id : String
  passPercentage : Int
  conditions : List Condition
  returnValue : JVal
  salt : String
  idType : String

/-- Raw JSON form of a rule as it arrives in a server payload. -/
structure RuleJSON where
  name : Option String := none
  id : Option String := none
  passPercentage : Option Int := none
  conditions : Option (List Condition) := none
  returnValue : Option JVal := none
  salt : Option String := none
  idType : Option String := none

/-- A parsed ConfigSpec (gate, dynamic config, or layer). -/
structure ConfigSpec where
  name : String
  type : String
  salt : String
  enabled : Bool
  defaultValue : JVal
  rules : List Rule
  idType : String

/-- Raw JSON form of a ConfigSpec as it arrives in a server payload;
`none` models an absent field. -/
structure ConfigSpecJSON where
  name : Option String := none
  type : Option String := none
  salt : Option String := none
  enabled : Option Bool := none
  defaultValue : Option JVal := none
  rules : Option (List RuleJSON) := none
  idType : Option String := none

/-- Modelled from the spec: a rule inherits the spec's salt when its own
is absent; `idType` defaults to `userID` (ConfigSpec.ts is not under src). -/
def mkRule (specSalt : String) (r : RuleJSON) : Rule :=
  { name := r.name.getD ""
    id := r.id.getD ""
    passPercentage := r.passPercentage.getD 0
    conditions := r.conditions.getD []
    returnValue := r.returnValue.getD JVal.null
    salt := r.salt.getD specSalt
    idType := r.idType.getD "userID" }

/-- Recognized ConfigSpec kinds. -/
def recognizedKind (t : String) : Bool :=
  t == "feature_gate" || t == "dynamic_config" || t == "layer"

/-- Modelled from the spec: the ConfigSpec constructor (ConfigSpec.ts is not
under src) validates that required fields are present, `type` is a
recognized kind and `rules` is a sequence, and throws otherwise
(`Except.error ()` embeds the throw). -/
def mkConfigSpec (j : ConfigSpecJSON) : Except Unit ConfigSpec :=
  match j.name, j.type, j.rules with
  | some n, some t, some rs =>
    if recognizedKind t then
      Except.ok
        { name := n
          type := t
          salt := j.salt.getD ""
          enabled := j.enabled.getD false
          defaultValue := j.defaultValue.getD JVal.null
          rules := rs.map (mkRule (j.salt.getD ""))
          idType := j.idType.getD "userID" }
    else
      Except.error ()
  | _, _, _ => Except.error ()

/-- One of the three loops of `_process` building `updatedGates` /
`updatedConfigs` / `updatedLayers`: constructs each spec in order and
returns early at the first constructor throw. -/
def buildSpecMap (acc : List (String × ConfigSpec)) :
    List ConfigSpecJSON → Except Unit (List (String × ConfigSpec))
  | [] => Except.ok acc
  | j :: rest =>
    match mkConfigSpec j with
    | Except.ok c => buildSpecMap (recSet acc c.name c) rest
    | Except.error _ => Except.error ()

/-- The `diagnostics` object of a payload; each field is `some v` when the
JSON value is a number and `none` otherwise (absent or non-numeric).  The
source key named after SDK initialization is a Lean keyword, so it is
embedded as `initRate`. -/
structure DiagnosticsJSON where
  dcs : Option Int := none
  log : Option Int := none
  idlist : Option Int := none
  initRate : Option Int := none

/-- The store's `SDKConstants` sampling rates (`initRate` embeds the
source's fourth key, whose name is a Lean keyword). -/
structure SDKConstants where
  dcs : Int
  log : Int
  idlist : Int
  initRate : Int
deriving DecidableEq

/-- Modelled from the spec: MAX_SAMPLING_RATE is exported by a Diagnostics
module version absent from src; the claims are independent of its value. -/
def MAX_SAMPLING_RATE : Int := 10000

/-- Embeds `SpecStore.safeSet` for a single key: a non-number is ignored,
a negative value is clamped to 0, a value above MAX_SAMPLING_RATE is
clamped to MAX_SAMPLING_RATE. -/
def safeSet (current : Int) (value : Option Int) : Int :=
  match value with
  | none => current
  | some v =>
    if v < 0 then 0
    else if v > MAX_SAMPLING_RATE then MAX_SAMPLING_RATE
    else v

/-- Embeds `SpecStore.updateSamplingRates`: a non-object `diagnostics`
(`none`) leaves the rates unchanged; otherwise each of the four keys is
set through `safeSet`. -/
def updateSamplingRates (sr : SDKConstants) (obj : Option DiagnosticsJSON) :
    SDKConstants :=
  match obj with
  | none => sr
  | some d =>
    { dcs := safeSet sr.dcs d.dcs
      log := safeSet sr.log d.log
      idlist := safeSet sr.idlist d.idlist
      initRate := safeSet sr.initRate d.initRate }

/-- A config-specs payload as far as `_process` inspects it.  `none` for
one of the three spec arrays models a value that is not a sequence
(`Array.isArray` fails); `time := none` models an absent `time`. -/
structure SpecsJSON where
  has_updates : Bool
  time : Option Int := none
  feature_gates : Option (List ConfigSpecJSON) := none
  dynamic_configs : Option (List ConfigSpecJSON) := none
  layer_configs : Option (List ConfigSpecJSON) := none
  layers : Option (List (String × List String)) := none
  sdk_keys_to_app_ids : Option (List (String × String)) := none
  diagnostics : Option DiagnosticsJSON := none

/-- Embeds `SpecStore._reverseLayerExperimentMapping`: inverts the
layer → experiments mapping; a later layer overwrites an earlier one for
a shared experiment name. -/
def reverseLayerExperimentMapping (layersMapping : Option (List (String × List String))) :
    List (String × String) :=
  match layersMapping with
  | none => []
  | some m =>
    m.foldl
      (fun acc p => p.2.foldl (fun acc2 e => recSet acc2 e p.1) acc)
      []

/-- An ID list held by the store.  `readBytes` is a JavaScript number:
`none` embeds `NaN`. -/
structure IDList where
  ids : List String
  readBytes : Option Int
  url : String
  fileID : String
  creationTime : Int
deriving DecidableEq

/-- The mutable state of `SpecStore` as far as the claims observe it.
`initReason` is the string union `EvaluationReason`. -/
structure SpecStoreState where
  gates : List (String × ConfigSpec)
  configs : List (String × ConfigSpec)
  layers : List (String × ConfigSpec)
  experimentToLayer : List (String × String)
  idLists : List (String × IDList)
  lastUpdateTime : Int
  clientSDKKeyToAppMap : List (String × String)
  samplingRates : SDKConstants
  initReason : String

/-- The store as built by the `SpecStore` constructor. -/
def initialState : SpecStoreState :=
  { gates := []
    configs := []
    layers := []
    experimentToLayer := []
    idLists := []
    lastUpdateTime := 0
    clientSDKKeyToAppMap := []
    samplingRates := { dcs := 0, log := 0, idlist := 0, initRate := MAX_SAMPLING_RATE }
    initReason := "Uninitialized" }

/-- Result triple of `_process`: the mutated store plus the
`{success, hasUpdates}` return value. -/
structure ProcessResult where
  store : SpecStoreState
  success : Bool
  hasUpdates : Bool

/-- Embeds `SpecStore._process`.  With `has_updates` falsy it returns
success without touching anything.  Otherwise it first updates the
sampling rates from `diagnostics`, rejects if any of the three top-level
spec collections is not a sequence or any ConfigSpec constructor throws,
and on success atomically assigns the new gates, configs, layers,
experiment→layer mapping, `lastUpdateTime` (falling back to the old value
when `time` is absent) and client-key map. -/
def _process (st : SpecStoreState) (p : SpecsJSON) : ProcessResult :=
  if !p.has_updates then
    { store := st, success := true, hasUpdates := false }
  else
    let st1 := { st with samplingRates := updateSamplingRates st.samplingRates p.diagnostics }
    match p.feature_gates, p.dynamic_configs, p.layer_configs with
    | some gateArray, some configArray, some layersArray =>
      (match buildSpecMap [] gateArray with
       | Except.error _ => { store := st1, success := false, hasUpdates := true }
       | Except.ok updatedGates =>
         match buildSpecMap [] configArray with
         | Except.error _ => { store := st1, success := false, hasUpdates := true }
         | Except.ok updatedConfigs =>
           match buildSpecMap [] layersArray with
           | Except.error _ => { store := st1, success := false, hasUpdates := true }
           | Except.ok updatedLayers =>
             { store :=
                 { st1 with
                   gates := updatedGates
                   configs := updatedConfigs
                   layers := updatedLayers
                   experimentToLayer := reverseLayerExperimentMapping p.layers
                   lastUpdateTime := p.time.getD st1.lastUpdateTime
                   clientSDKKeyToAppMap := p.sdk_keys_to_app_ids.getD [] }
               success := true
               hasUpdates := true })
    | _, _, _ => { store := st1, success := false, hasUpdates := true }

/-- A user context: a JavaScript object of well-known fields. -/
def StatsigUser := List (String × JVal)

/-- Whether a character-list begins with the given pattern. -/
def leadsWith : List Char → List Char → Bool
  | [], _ => true
  | _ :: _, [] => false
  | a :: as, b :: bs => a == b && leadsWith as bs

/-- Whether `pat` occurs inside `hay` (both as character lists). -/
def containsSub (pat : List Char) : List Char → Bool
  | [] => leadsWith pat []
  | c :: t => leadsWith pat (c :: t) || containsSub pat t

/-- ASCII lowercasing to a character list (the string-level `toLower` is
not kernel-reducible). -/
def strLower (s : String) : List Char :=
  s.toList.map Char.toLower

/-- Case-insensitive substring test on strings. -/
def strContains (hay pat : String) : Bool :=
  containsSub (strLower pat) (strLower hay)

/-- Case-insensitive lookup of a key in a JavaScript object, per the spec's
field-lookup rule for the top level and the `custom` mapping. -/
def lookupCI (m : List (String × JVal)) (k : String) : Option JVal :=
  (m.find? (fun p => strLower p.1 == strLower k)).map (fun p => p.2)

/-- Modelled from the spec: user-field lookup reads the top level
case-insensitively and falls back to the `custom` mapping (the evaluator
source is not under src; the repository test exercises exactly these two
lookups). -/
def getUserField (user : StatsigUser) (field : String) : Option JVal :=
  match lookupCI user field with
  | some v => some v
  | none =>
    match lookupCI user "custom" with
    | some (JVal.obj m) => lookupCI m field
    | _ => none

/-- The `str_contains_any` operator: the value is a string containing any
of the target strings, case-insensitively. -/
def opStrContainsAny (target : JVal) (v : JVal) : Bool :=
  match v, target with
  | JVal.str s, JVal.arr ts =>
    ts.any (fun t =>
      match t with
      | JVal.str t0 => strContains s t0
      | _ => false)
  | _, _ => false

/-- The `gte` operator with the numeric coercions the claims exercise. -/
def opGte (target : JVal) (v : JVal) : Bool :=
  match v, target with
  | JVal.num a, JVal.num b => decide (b ≤ a)
  | _, _ => false

/-- Modelled from the spec: one condition against a user.  `public`
passes; `user_field` reads the field and applies the operator; a
condition with an unknown type or operator fails closed. -/
def condMatch (user : StatsigUser) (c : Condition) : Bool :=
  match c.ctype with
  | "public" => true
  | "user_field" =>
    (match c.field with
     | none => false
     | some f =>
       match getUserField user f, c.operator with
       | some v, some "str_contains_any" => opStrContainsAny c.targetValue v
       | some v, some "gte" => opGte c.targetValue v
       | _, _ => false)
  | _ => false

/-- The unit of randomization for a rule: the user field named by the
rule's `idType`, stringified. -/
def unitIDFor (user : StatsigUser) (idType : String) : String :=
  match getUserField user idType with
  | some (JVal.str s) => s
  | some (JVal.num n) => toString n
  | _ => ""

/-- Modelled from the spec's bucketing law: pass iff
`h(spec.salt + "." + rule_salt_or_id + "." + unitID) mod 10000 <
passPercentage * 100`, with the 64-bit SHA-256 hash abstracted as a
function parameter `h`. -/
def rulePasses (h : String → Nat) (spec : ConfigSpec) (r : Rule) (user : StatsigUser) : Bool :=
  let saltOrId := if r.salt == "" then r.id else r.salt
  let unitID := unitIDFor user r.idType
  decide ((h (spec.salt ++ "." ++ saltOrId ++ "." ++ unitID) % 10000 : Int) <
    r.passPercentage * 100)

/-- The decision of an evaluation as the repository test observes it:
the value and the rule id that produced it. -/
structure EvalResult where
  value : JVal
  ruleID : String

/-- Walks rules in order: the first whose conditions all match decides —
pass returns its return value under its id, bucketing failure returns the
default under that same rule's id; no match falls through to the
`default` result. -/
def evalRules (h : String → Nat) (spec : ConfigSpec) (user : StatsigUser) :
    List Rule → EvalResult
  | [] => { value := spec.defaultValue, ruleID := "default" }
  | r :: rest =>
    if r.conditions.all (condMatch user) then
      if rulePasses h spec r user then
        { value := r.returnValue, ruleID := r.id }
      else
        { value := spec.defaultValue, ruleID := r.id }
    else
      evalRules h spec user rest

/-- Modelled from the spec: `ConfigSpec.evaluate` (not under src).  A
disabled spec short-circuits to its default value; the repository test
(`Test evaluate works for gates`) pins the disabled result's rule id to
`"default"`.  Enabled specs walk their rules in order. -/
def evaluate (h : String → Nat) (spec : ConfigSpec) (user : StatsigUser) : EvalResult :=
  if !spec.enabled then
    { value := spec.defaultValue, ruleID := "default" }
  else
    evalRules h spec user spec.rules

/-- A payload is malformed exactly when one of the three top-level spec
collections is not a sequence or some ConfigSpec constructor throws. -/
def Malformed (p : SpecsJSON) : Prop :=
  p.feature_gates = none ∨ p.dynamic_configs = none ∨ p.layer_configs = none ∨
    (∃ gs, p.feature_gates = some gs ∧ ∃ j ∈ gs, mkConfigSpec j = Except.error ()) ∨
    (∃ cs, p.dynamic_configs = some cs ∧ ∃ j ∈ cs, mkConfigSpec j = Except.error ()) ∨
    (∃ ls, p.layer_configs = some ls ∧ ∃ j ∈ ls, mkConfigSpec j = Except.error ())

/-!  Error boundary (ErrorBoundary.ts). -/

/-- The kind of a thrown error, keyed by the `instanceof` tests of
`ErrorBoundary.onCaught`; `other` carries the error's constructor name. -/
inductive ErrKind where
  | uninitialized : ErrKind
  | invalidArgument : ErrKind
  | tooManyRequests : ErrKind
  | localModeNetwork : ErrKind
  | other : String → ErrKind
deriving DecidableEq

/-- Whether `onCaught` rethrows this kind unchanged. -/
def propagates : ErrKind → Bool
  | ErrKind.uninitialized => true
  | ErrKind.invalidArgument => true
  | ErrKind.tooManyRequests => true
  | _ => false

/-- The observable outcome of `ErrorBoundary.capture`: the returned or
rethrown value, whether `OutputLogger.error` ran and whether the
exception reporter (`logError`) ran. -/
structure CaptureResult (α : Type) where
  result : Except ErrKind α
  logged : Bool
  reported : Bool

/-- Embeds `ErrorBoundary.onCaught`: the three non-recoverable kinds are
rethrown; a LocalModeNetwork error is recovered with no telemetry; every
other error is logged, reported and recovered. -/
def onCaught (e : ErrKind) (recover : ErrKind → α) : CaptureResult α :=
  if propagates e then
    { result := Except.error e, logged := false, reported := false }
  else if e = ErrKind.localModeNetwork then
    { result := Except.ok (recover e), logged := false, reported := false }
  else
    { result := Except.ok (recover e), logged := true, reported := true }

/-- Embeds `ErrorBoundary.capture`: the task's outcome (a synchronous
throw and a rejected promise are both `Except.error`) either returns
directly or goes through `onCaught`. -/
def capture (task : Except ErrKind α) (recover : ErrKind → α) : CaptureResult α :=
  match task with
  | Except.ok v => { result := Except.ok v, logged := false, reported := false }
  | Except.error e => onCaught e recover

/-!  Exception-report deduplication (ErrorBoundary.logError). -/

/-- One call to `logError`: whether the argument is an `Error`, its
`name` property, and the optional explicit dedup key. -/
structure LoggedCall where
  isError : Bool
  errName : String
  key : Option String

/-- The name `logError` derives: the error's `name` when it is an `Error`
with a non-empty name, `"No Name"` otherwise. -/
def derivedName (c : LoggedCall) : String :=
  if c.isError && !(c.errName == "") then c.errName else "No Name"

/-- A POST to the sdk_exception endpoint: the reported name and the key
the triggering call supplied. -/
structure ExceptionPost where
  name : String
  key : Option String
deriving DecidableEq

/-- Embeds one `logError` call over the `seen` set: an empty sdk key is a
no-op; a call whose derived name, or whose supplied key, is already in
`seen` is skipped; otherwise the derived name (only) is added to `seen`
and a POST is made. -/
def logErrorStep (sdkKey : String) (seen : List String) (c : LoggedCall) :
    List String × Option ExceptionPost :=
  if sdkKey == "" then (seen, none)
  else
    let name := derivedName c
    if seen.contains name ||
        (match c.key with
         | some k => seen.contains k
         | none => false) then
      (seen, none)
    else
      (name :: seen, some { name := name, key := c.key })

/-- A process lifetime of `logError` calls: threads `seen` through the
calls and collects the POSTs made. -/
def runLogErrors (sdkKey : String) (seen : List String) :
    List LoggedCall → List String × List ExceptionPost
  | [] => (seen, [])
  | c :: rest =>
    let step := logErrorStep sdkKey seen c
    let tail := runLogErrors sdkKey step.1 rest
    (tail.1,
      (match step.2 with
       | some p => [p]
       | none => []) ++ tail.2)

/-!  ID-list ranged fetch (SpecStore.genFetchIDList). -/

/-- JavaScript `parseInt` on a decimal string: leading whitespace, an
optional sign, then leading digits; no digits gives `NaN` (`none`). -/
def parseIntJS (s : String) : Option Int :=
  let cs := s.toList.dropWhile (fun c => c.isWhitespace)
  let signed : Bool × List Char :=
    match cs with
    | '-' :: t => (true, t)
    | '+' :: t => (false, t)
    | _ => (false, cs)
  let digits := signed.2.takeWhile (fun c => c.isDigit)
  if digits.isEmpty then none
  else
    let n : Nat := digits.foldl (fun acc c => acc * 10 + (c.toNat - '0'.toNat)) 0
    some (if signed.1 then -(n : Int) else (n : Int))

/-- JavaScript `+` on numbers: adding `NaN` to anything is `NaN`. -/
def jsAdd : Option Int → Option Int → Option Int
  | some a, some b => some (a + b)
  | _, _ => none

/-- JavaScript `typeof v === 'number'` for `v` produced by `parseInt`:
always true, because `typeof NaN` is `"number"` — this is what makes the
delete branch of `genFetchIDList` unreachable. -/
def typeofIsNumber (_v : Option Int) : Bool := true

/-- Splits a character list at newlines (string-level `splitOn` is not
kernel-reducible). -/
def splitLinesAux (acc : List Char) : List Char → List (List Char)
  | [] => [acc.reverse]
  | c :: rest =>
    if c == '\n' then acc.reverse :: splitLinesAux [] rest
    else splitLinesAux (c :: acc) rest

/-- Modelled from the spec: the body of a ranged GET is newline-separated
`[+-]<hashedID>` records and a trailing partial line (after the final
newline) is discarded. -/
def idListLines (body : String) : List (List Char) :=
  (splitLinesAux [] body.toList).dropLast

/-- Applies one `[+-]<hashedID>` record to a set of ids. -/
def applyIdLine (ids : List String) (line : List Char) : List String :=
  match line with
  | '+' :: rest =>
    (if ids.contains (String.mk rest) then ids else ids ++ [String.mk rest])
  | '-' :: rest => ids.filter (fun i => !(i == String.mk rest))
  | _ => ids

/-- Modelled from the spec: `IDListUtil.updateIdList` (not under src)
folds the body's records into the named list's ids. -/
def updateIdList (store : List (String × IDList)) (name : String) (body : String) :
    List (String × IDList) :=
  match recGet store name with
  | none => store
  | some l => recSet store name { l with ids := (idListLines body).foldl applyIdLine l.ids }

/-- Embeds the response-processing half of `SpecStore.genFetchIDList`
(after the ranged GET succeeded), with its try/catch: a missing
Content-Length header throws before any mutation (caught, store
unchanged); otherwise `parseInt` of the header is added to the list's
`readBytes` — the `typeof length === 'number'` guard always holds, even
for `NaN`, so the `delete` branch is dead — and the body is folded in.
Reading `readBytes` of a list absent from the store throws (caught,
store unchanged). -/
def genFetchIDListProcess (store : List (String × IDList)) (name : String)
    (contentLength : Option String) (body : String) : List (String × IDList) :=
  match contentLength with
  | none => store
  | some cl =>
    let length := parseIntJS cl
    match recGet store name with
    | none => store
    | some l =>
      if typeofIsNumber length then
        updateIdList (recSet store name { l with readBytes := jsAdd l.readBytes length })
          name body
      else
        recDelete store name

/-!  Sync-timer watchdog (SpecStore.resetSyncTimerIfExited / pollForUpdates). -/

/-- `SYNC_OUTDATED_MAX` of SpecStore.ts. -/
def SYNC_OUTDATED_MAX : Int := 120 * 1000

/-- The store's timer bookkeeping: whether each polling timer is
scheduled, each loop's last-active timestamp and its period. -/
structure TimerState where
  rulesetsSyncTimer : Bool
  idListsSyncTimer : Bool
  rulesetsSyncTimerLastActiveTime : Int
  idListsSyncTimerLastActiveTime : Int
  rulesetsSyncInterval : Int
  idListsSyncInterval : Int
deriving DecidableEq

/-- The rulesets timer is declared dead: its last-active timestamp is
older than `now - max(SYNC_OUTDATED_MAX, interval)`. -/
def rulesetsInactive (st : TimerState) (now : Int) : Bool :=
  decide (st.rulesetsSyncTimerLastActiveTime <
    now - max SYNC_OUTDATED_MAX st.rulesetsSyncInterval)

/-- The id-lists timer is declared dead. -/
def idListsInactive (st : TimerState) (now : Int) : Bool :=
  decide (st.idListsSyncTimerLastActiveTime <
    now - max SYNC_OUTDATED_MAX st.idListsSyncInterval)

/-- Embeds `clearRulesetsSyncTimer`. -/
def clearRulesetsSyncTimer (st : TimerState) : TimerState :=
  { st with rulesetsSyncTimer := false }

/-- Embeds `clearIdListsSyncTimer`. -/
def clearIdListsSyncTimer (st : TimerState) : TimerState :=
  { st with idListsSyncTimer := false }

/-- Embeds `pollForUpdates`: each timer that is not currently scheduled
is created and its last-active timestamp set to now; a scheduled timer is
left alone. -/
def pollForUpdates (st : TimerState) (now : Int) : TimerState :=
  let st1 :=
    if !st.rulesetsSyncTimer then
      { st with rulesetsSyncTimer := true, rulesetsSyncTimerLastActiveTime := now }
    else st
  if !st1.idListsSyncTimer then
    { st1 with idListsSyncTimer := true, idListsSyncTimerLastActiveTime := now }
  else st1

/-- The message fragment appended when the rulesets timer is reset. -/
def resetMsgRulesets (st : TimerState) (now : Int) : String :=
  "Force reset sync timer. Last update time: " ++
    toString st.rulesetsSyncTimerLastActiveTime ++ ", now: " ++ toString now

/-- The message fragment appended when the id-list timer is reset. -/
def resetMsgIdLists (st : TimerState) (now : Int) : String :=
  "Force reset id list sync timer. Last update time: " ++
    toString st.idListsSyncTimerLastActiveTime ++ ", now: " ++ toString now

/-- Embeds `resetSyncTimerIfExited` with `Date.now()` frozen at `now`:
returns `none` when neither timer is dead; otherwise clears each dead
timer, reschedules via `pollForUpdates` and returns the error message
naming the timers that were reset. -/
def resetSyncTimerIfExited (st : TimerState) (now : Int) : TimerState × Option String :=
  let rInact := rulesetsInactive st now
  let iInact := idListsInactive st now
  if !rInact && !iInact then (st, none)
  else
    let stepR : TimerState × String :=
      if rInact then (clearRulesetsSyncTimer st, resetMsgRulesets st now)
      else (st, "")
    let stepI : TimerState × String :=
      if iInact then (clearIdListsSyncTimer stepR.1, stepR.2 ++ resetMsgIdLists st now)
      else (stepR.1, stepR.2)
    (pollForUpdates stepI.1 now, some stepI.2)

/-!  initReason lifecycle (SpecStore.init and the sync paths). -/

/-- Embeds `_fetchConfigSpecsFromAdapter`: `none` models a missing or
errored adapter result or a JSON.parse throw (state unchanged, not
synced); otherwise the payload goes through `_process` and success sets
`initReason = "DataAdapter"`. -/
def fetchConfigSpecsFromAdapter (st : SpecStoreState) (adapterResult : Option SpecsJSON) :
    SpecStoreState × Bool :=
  match adapterResult with
  | none => (st, false)
  | some p =>
    let r := _process st p
    if r.success then ({ r.store with initReason := "DataAdapter" }, true)
    else (r.store, false)

/-- Embeds `_fetchConfigSpecsFromServer`: `none` models a network fetch,
body read or JSON.parse throw (state unchanged, not synced); otherwise
the payload goes through `_process` and success sets
`initReason = "Network"`. -/
def fetchConfigSpecsFromServer (st : SpecStoreState) (networkResult : Option SpecsJSON) :
    SpecStoreState × Bool :=
  match networkResult with
  | none => (st, false)
  | some p =>
    let r := _process st p
    if r.success then ({ r.store with initReason := "Network" }, true)
    else (r.store, false)

/-- Embeds the bootstrap branch of `init`: `none` models a JSON.parse
throw (caught, logged); otherwise the payload goes through `_process` and
`initReason = "Bootstrap"` is set when `lastUpdateTime` ended up
non-zero. -/
def bootstrapStep (st : SpecStoreState) (parsed : Option SpecsJSON) : SpecStoreState :=
  match parsed with
  | none => st
  | some p =>
    let r := _process st p
    if r.store.lastUpdateTime ≠ 0 then { r.store with initReason := "Bootstrap" }
    else r.store

/-- Embeds one `_syncConfigSpecs` tick's effect on the store: the adapter
path when the adapter advertises polling support, the network path
otherwise. -/
def syncConfigSpecs (st : SpecStoreState) (fromAdapter : Bool)
    (payload : Option SpecsJSON) : SpecStoreState :=
  if fromAdapter then (fetchConfigSpecsFromAdapter st payload).1
  else (fetchConfigSpecsFromServer st payload).1

/-- The inputs `init` consumes: whether an adapter is configured, its
rulesets result, the bootstrap string (outer `none` = not provided,
inner `none` = parse failure) and the network response. -/
structure InitInputs where
  hasAdapter : Bool
  adapterResult : Option SpecsJSON := none
  bootstrapParsed : Option (Option SpecsJSON) := none
  networkResult : Option SpecsJSON := none

/-- The adapter phase of `SpecStore.init`. -/
def initAdapterPhase (st : SpecStoreState) (inp : InitInputs) : SpecStoreState :=
  if inp.hasAdapter then (fetchConfigSpecsFromAdapter st inp.adapterResult).1 else st

/-- The bootstrap phase of `SpecStore.init`: runs only while still
Uninitialized and only when bootstrap values were provided. -/
def initBootstrapPhase (st : SpecStoreState) (inp : InitInputs) : SpecStoreState :=
  if st.initReason == "Uninitialized" then
    match inp.bootstrapParsed with
    | some bp => bootstrapStep st bp
    | none => st
  else st

/-- The network phase of `SpecStore.init`: runs only while still
Uninitialized. -/
def initNetworkPhase (st : SpecStoreState) (inp : InitInputs) : SpecStoreState :=
  if st.initReason == "Uninitialized" then
    (fetchConfigSpecsFromServer st inp.networkResult).1
  else st

/-- Embeds the ruleset part of `SpecStore.init`: adapter first, bootstrap
only while still Uninitialized, network only while still
Uninitialized. -/
def initStore (st0 : SpecStoreState) (inp : InitInputs) : SpecStoreState :=
  initNetworkPhase (initBootstrapPhase (initAdapterPhase st0 inp) inp) inp

/-- A post-init event that can touch the ruleset store. -/
inductive StoreEvent where
  | syncConfig : Bool → Option SpecsJSON → StoreEvent

/-- Applies one event. -/
def applyEvent (st : SpecStoreState) : StoreEvent → SpecStoreState
  | StoreEvent.syncConfig fromAdapter payload => syncConfigSpecs st fromAdapter payload

/-- Applies a sequence of events. -/
def applyEvents (st : SpecStoreState) (evs : List StoreEvent) : SpecStoreState :=
  evs.foldl applyEvent st

/-- The value set `initReason` ranges over. -/
def validInitReasons : List String :=
  ["Uninitialized", "Network", "Bootstrap", "DataAdapter"]

/-!  Concrete instances used by counterexamples and witnesses. -/

/-- A concrete stand-in for the SHA-256 bucketing hash. -/
def h0 : String → Nat := fun _ => 0

/-- The email condition of the repository test's gate specs. -/
def condEmail : Condition :=
  { ctype := "user_field"
    targetValue := JVal.arr [JVal.str "packers.com", JVal.str "nfl.com"]
    operator := some "str_contains_any"
    field := some "email" }

/-- The enabled `nfl` gate of the repository test. -/
def gateSpec : ConfigSpec :=
  { name := "nfl"
    type := "feature_gate"
    salt := "na"
    enabled := true
    defaultValue := JVal.bool false
    rules :=
      [{ name := "employees"
         id := "rule_id_gate"
         passPercentage := 100
         conditions := [condEmail]
         returnValue := JVal.bool true
         salt := "na"
         idType := "userID" }]
    idType := "userID" }

/-- The disabled `nfl` gate of the repository test. -/
def disabledGateSpec : ConfigSpec :=
  { name := "nfl"
    type := "feature_gate"
    salt := "na"
    enabled := false
    defaultValue := JVal.bool false
    rules :=
      [{ name := "employees"
         id := "rule_id_disabled_gate"
         passPercentage := 100
         conditions := [condEmail]
         returnValue := JVal.bool true
         salt := "na"
         idType := "userID" }]
    idType := "userID" }

/-- The matching user of the repository test. -/
def toreUser : StatsigUser := [("email", JVal.str "tore@packers.com")]

/-- A well-formed payload with empty spec arrays and the given time. -/
def pEmptyValid (t : Int) : SpecsJSON :=
  { has_updates := true
    time := some t
    feature_gates := some []
    dynamic_configs := some []
    layer_configs := some [] }

/-- A malformed payload (`feature_gates` is not a sequence) carrying a
diagnostics object. -/
def pMalformedDiag : SpecsJSON :=
  { has_updates := true
    feature_gates := none
    dynamic_configs := some []
    layer_configs := some []
    diagnostics := some { dcs := some 5 } }

/-- A store with one ID list at zero read bytes. -/
def idStore0 : List (String × IDList) :=
  [("list_1",
    { ids := []
      readBytes := some 0
      url := "https://example.com/list_1"
      fileID := "file_1"
      creationTime := 1 })]

/-- Two `logError` calls with distinct error names sharing one key. -/
def callA : LoggedCall := { isError := true, errName := "TypeError", key := some "K" }

/-- See `callA`. -/
def callB : LoggedCall := { isError := true, errName := "RangeError", key := some "K" }

/-- A timer state whose two loops are both live at `now = 0`. -/
def stWatchdogLive : TimerState :=
  { rulesetsSyncTimer := true
    idListsSyncTimer := true
    rulesetsSyncTimerLastActiveTime := 0
    idListsSyncTimerLastActiveTime := 0
    rulesetsSyncInterval := 10000
    idListsSyncInterval := 10000 }

/-- A store that finished init through the network source. -/
def stNetwork : SpecStoreState :=
  (fetchConfigSpecsFromServer initialState (some (pEmptyValid 100))).1

/-- Init inputs with only an adapter configured and succeeding. -/
def inpAdapterOnly : InitInputs :=
  { hasAdapter := true, adapterResult := some (pEmptyValid 100) }

/-- A payload with `has_updates` false. -/
def pNoUpdates : SpecsJSON := { has_updates := false }

/-- Init inputs with no adapter and no bootstrap, succeeding over the
network. -/
def inpNetworkOnly : InitInputs :=
  { hasAdapter := false, networkResult := some (pEmptyValid 100) }

/-!  Theorems. -/

/-- If some element of the list makes the ConfigSpec constructor throw,
the whole build loop returns the error. -/
theorem buildSpecMap_error_of_mem (acc : List (String × ConfigSpec))
    (xs : List ConfigSpecJSON)
    (h : ∃ j ∈ xs, mkConfigSpec j = Except.error ()) :
    buildSpecMap acc xs = Except.error () := by
  induction xs generalizing acc with
  | nil => rcases h with ⟨j, hj, _⟩; cases hj
  | cons x rest ih =>
    rcases h with ⟨j, hj, he⟩
    rcases List.mem_cons.mp hj with rfl | hmem
    · simp [buildSpecMap, he]
    · cases hx : mkConfigSpec x with
      | ok c =>
        simp only [buildSpecMap, hx]
        exact ih _ ⟨j, hmem, he⟩
      | error u => simp [buildSpecMap, hx]

/-- A payload with `has_updates` falsy is a successful no-op. -/
theorem process_no_updates (st : SpecStoreState) (p : SpecsJSON)
    (h : p.has_updates = false) :
    _process st p = { store := st, success := true, hasUpdates := false } := by
  simp [_process, h]

/-- On any rejection with `has_updates`, the resulting store is the old
one with only the sampling rates replaced. -/
theorem process_fail_store (st : SpecStoreState) (p : SpecsJSON)
    (h : p.has_updates = true) (hf : (_process st p).success = false) :
    (_process st p).store =
      { st with samplingRates := updateSamplingRates st.samplingRates p.diagnostics } := by
  cases hfg : p.feature_gates with
  | none => simp [_process, h, hfg]
  | some gs =>
    cases hdc : p.dynamic_configs with
    | none => simp [_process, h, hfg, hdc]
    | some cs =>
      cases hlc : p.layer_configs with
      | none => simp [_process, h, hfg, hdc, hlc]
      | some ls =>
        cases hbg : buildSpecMap [] gs with
        | error u => simp [_process, h, hfg, hdc, hlc, hbg]
        | ok gm =>
          cases hbc : buildSpecMap [] cs with
          | error u => simp [_process, h, hfg, hdc, hlc, hbg, hbc]
          | ok cm =>
            cases hbl : buildSpecMap [] ls with
            | error u => simp [_process, h, hfg, hdc, hlc, hbg, hbc, hbl]
            | ok lm =>
              simp [_process, h, hfg, hdc, hlc, hbg, hbc, hbl] at hf

/-- On any successful application with `has_updates`, the new
`lastUpdateTime` is the payload's time (old value when absent) and the
sampling rates come from the payload's diagnostics. -/
theorem process_success_fields (st : SpecStoreState) (p : SpecsJSON)
    (h : p.has_updates = true) (hs : (_process st p).success = true) :
    (_process st p).store.lastUpdateTime = p.time.getD st.lastUpdateTime ∧
    (_process st p).store.samplingRates =
      updateSamplingRates st.samplingRates p.diagnostics := by
  cases hfg : p.feature_gates with
  | none => simp [_process, h, hfg] at hs
  | some gs =>
    cases hdc : p.dynamic_configs with
    | none => simp [_process, h, hfg, hdc] at hs
    | some cs =>
      cases hlc : p.layer_configs with
      | none => simp [_process, h, hfg, hdc, hlc] at hs
      | some ls =>
        cases hbg : buildSpecMap [] gs with
        | error u => simp [_process, h, hfg, hdc, hlc, hbg] at hs
        | ok gm =>
          cases hbc : buildSpecMap [] cs with
          | error u => simp [_process, h, hfg, hdc, hlc, hbg, hbc] at hs
          | ok cm =>
            cases hbl : buildSpecMap [] ls with
            | error u => simp [_process, h, hfg, hdc, hlc, hbg, hbc, hbl] at hs
            | ok lm =>
              simp [_process, h, hfg, hdc, hlc, hbg, hbc, hbl]

/-- With `has_updates`, the sampling rates are updated from the payload's
diagnostics in every branch, success or not. -/
theorem process_sampling (st : SpecStoreState) (p : SpecsJSON)
    (h : p.has_updates = true) :
    (_process st p).store.samplingRates =
      updateSamplingRates st.samplingRates p.diagnostics := by
  cases hs : (_process st p).success with
  | false => rw [process_fail_store st p h hs]
  | true => exact (process_success_fields st p h hs).2

/-- A malformed payload with `has_updates` is rejected. -/
theorem process_fail_of_malformed (st : SpecStoreState) (p : SpecsJSON)
    (h : p.has_updates = true) (hm : Malformed p) :
    (_process st p).success = false := by
  rcases hm with h1 | h1 | h1 | ⟨gs, hgs, hex⟩ | ⟨cs, hcs, hex⟩ | ⟨ls, hls, hex⟩
  · simp [_process, h, h1]
  · cases hfg : p.feature_gates <;> simp [_process, h, h1, hfg]
  · cases hfg : p.feature_gates <;> cases hdc : p.dynamic_configs <;>
      simp [_process, h, h1, hfg, hdc]
  · have hbg := buildSpecMap_error_of_mem [] gs hex
    cases hdc : p.dynamic_configs <;> cases hlc : p.layer_configs <;>
      simp [_process, h, hgs, hdc, hlc, hbg]
  · have hbc := buildSpecMap_error_of_mem [] cs hex
    cases hfg : p.feature_gates with
    | none => simp [_process, h, hfg]
    | some gs' =>
      cases hlc : p.layer_configs with
      | none => simp [_process, h, hfg, hcs, hlc]
      | some ls' =>
        cases hbg : buildSpecMap [] gs' with
        | error u => simp [_process, h, hfg, hcs, hlc, hbg]
        | ok gm => simp [_process, h, hfg, hcs, hlc, hbg, hbc]
  · have hbl := buildSpecMap_error_of_mem [] ls hex
    cases hfg : p.feature_gates with
    | none => simp [_process, h, hfg]
    | some gs' =>
      cases hdc : p.dynamic_configs with
      | none => simp [_process, h, hfg, hdc]
      | some cs' =>
        cases hbg : buildSpecMap [] gs' with
        | error u => simp [_process, h, hfg, hdc, hls, hbg]
        | ok gm =>
          cases hbc : buildSpecMap [] cs' with
          | error u => simp [_process, h, hfg, hdc, hls, hbg, hbc]
          | ok cm => simp [_process, h, hfg, hdc, hls, hbg, hbc, hbl]

/-- C1 counterexample: a payload with `has_updates` and a non-sequence
`feature_gates` is rejected, yet the sampling rates are not preserved —
the claim's snapshot list wrongly includes `samplingRates`. -/
theorem C1_counterexample :
    (_process initialState pMalformedDiag).success = false ∧
    (_process initialState pMalformedDiag).store.samplingRates ≠
      initialState.samplingRates := by
  constructor
  · rfl
  · decide

/-- C1 (amended): for every malformed payload with `has_updates`,
`_process` returns success = false and preserves gates, configs, layers,
experimentToLayer, lastUpdateTime and clientSDKKeyToAppMap unchanged;
the sampling rates however are updated from the payload's diagnostics
before validation and are not preserved. -/
theorem C1_reject_preserves_snapshot_except_sampling
    (st : SpecStoreState) (p : SpecsJSON)
    (h : p.has_updates = true) (hm : Malformed p) :
    (_process st p).success = false ∧
    (_process st p).store.gates = st.gates ∧
    (_process st p).store.configs = st.configs ∧
    (_process st p).store.layers = st.layers ∧
    (_process st p).store.experimentToLayer = st.experimentToLayer ∧
    (_process st p).store.lastUpdateTime = st.lastUpdateTime ∧
    (_process st p).store.clientSDKKeyToAppMap = st.clientSDKKeyToAppMap ∧
    (_process st p).store.samplingRates =
      updateSamplingRates st.samplingRates p.diagnostics := by
  have hf := process_fail_of_malformed st p h hm
  have hst := process_fail_store st p h hf
  rw [hst]
  exact ⟨hf, rfl, rfl, rfl, rfl, rfl, rfl, rfl⟩

/-- Witness for C1: the amended theorem applied to the concrete malformed
payload. -/
theorem C1_witness :
    (_process initialState pMalformedDiag).success = false ∧
    (_process initialState pMalformedDiag).store.gates = initialState.gates ∧
    (_process initialState pMalformedDiag).store.configs = initialState.configs ∧
    (_process initialState pMalformedDiag).store.layers = initialState.layers ∧
    (_process initialState pMalformedDiag).store.experimentToLayer =
      initialState.experimentToLayer ∧
    (_process initialState pMalformedDiag).store.lastUpdateTime =
      initialState.lastUpdateTime ∧
    (_process initialState pMalformedDiag).store.clientSDKKeyToAppMap =
      initialState.clientSDKKeyToAppMap ∧
    (_process initialState pMalformedDiag).store.samplingRates =
      updateSamplingRates initialState.samplingRates pMalformedDiag.diagnostics :=
  C1_reject_preserves_snapshot_except_sampling initialState pMalformedDiag rfl
    (Or.inl rfl)

/-- C2: for every payload with `has_updates` and a numeric `time`, a
successful `_process` leaves `lastUpdateTime` equal to that time; and a
payload with `has_updates` false is a successful no-op. -/
theorem C2_success_sets_time_and_no_updates_noop :
    (∀ (st : SpecStoreState) (p : SpecsJSON) (t : Int),
        p.has_updates = true → p.time = some t →
        (_process st p).success = true →
        (_process st p).store.lastUpdateTime = t) ∧
    (∀ (st : SpecStoreState) (p : SpecsJSON),
        p.has_updates = false →
        _process st p = { store := st, success := true, hasUpdates := false }) := by
  constructor
  · intro st p t h ht hs
    have hl := (process_success_fields st p h hs).1
    rw [hl, ht]
    rfl
  · intro st p h
    exact process_no_updates st p h

/-- Witness for C2 at a concrete payload with time 7 and a concrete
no-update payload. -/
theorem C2_witness :
    (_process initialState (pEmptyValid 7)).store.lastUpdateTime = 7 ∧
    _process initialState pNoUpdates =
      { store := initialState, success := true, hasUpdates := false } :=
  ⟨C2_success_sets_time_and_no_updates_noop.1 initialState (pEmptyValid 7) 7 rfl rfl rfl,
   C2_success_sets_time_and_no_updates_noop.2 initialState pNoUpdates rfl⟩

/-- C3 counterexample: two successful applications of `_process` whose
payload times are 100 then 5 leave `lastUpdateTime` at 5 — it decreased
across successful applications, refuting monotonicity. -/
theorem C3_counterexample :
    (_process initialState (pEmptyValid 100)).success = true ∧
    (_process (_process initialState (pEmptyValid 100)).store
        (pEmptyValid 5)).success = true ∧
    (_process initialState (pEmptyValid 100)).store.lastUpdateTime = 100 ∧
    (_process (_process initialState (pEmptyValid 100)).store
        (pEmptyValid 5)).store.lastUpdateTime = 5 ∧
    ¬((100 : Int) ≤ 5) := by
  exact ⟨rfl, rfl, rfl, rfl, by decide⟩

/-- C3 (amended): a successful `_process` sets `lastUpdateTime` to the
payload's time (keeping the old value when the time is absent), so it is
non-decreasing only across successful applications whose payload time is
at least the current value. -/
theorem C3_monotone_of_nondecreasing_times
    (st : SpecStoreState) (p : SpecsJSON)
    (ht : p.time = none ∨ ∃ t, p.time = some t ∧ st.lastUpdateTime ≤ t)
    (hs : (_process st p).success = true) :
    st.lastUpdateTime ≤ (_process st p).store.lastUpdateTime := by
  cases h : p.has_updates with
  | false => rw [process_no_updates st p h]
  | true =>
    have hl := (process_success_fields st p h hs).1
    rw [hl]
    rcases ht with hnone | ⟨t, hsome, hle⟩
    · rw [hnone]
      exact le_refl _
    · rw [hsome]
      exact hle

/-- Witness for C3's amended theorem at a concrete non-decreasing step. -/
theorem C3_witness :
    initialState.lastUpdateTime ≤
      (_process initialState (pEmptyValid 7)).store.lastUpdateTime :=
  C3_monotone_of_nondecreasing_times initialState (pEmptyValid 7)
    (Or.inr ⟨7, rfl, by decide⟩) rfl

/-- C10: with `has_updates`, the sampling rates are always recomputed
from the payload's diagnostics — also on rejection — with each numeric
value clamped to [0, MAX_SAMPLING_RATE] and non-numeric values ignored. -/
theorem C10_sampling_rates_updated_even_on_reject :
    (∀ (st : SpecStoreState) (p : SpecsJSON), p.has_updates = true →
        (_process st p).store.samplingRates =
          updateSamplingRates st.samplingRates p.diagnostics) ∧
    (∀ cur : Int, safeSet cur none = cur) ∧
    (∀ cur v : Int, 0 ≤ safeSet cur (some v) ∧
        safeSet cur (some v) ≤ MAX_SAMPLING_RATE) ∧
    (∀ cur v : Int, 0 ≤ v → v ≤ MAX_SAMPLING_RATE → safeSet cur (some v) = v) := by
  have hmax : MAX_SAMPLING_RATE = 10000 := rfl
  refine ⟨fun st p h => process_sampling st p h, fun cur => rfl, ?_, ?_⟩
  · intro cur v
    simp only [safeSet]
    by_cases h1 : v < 0
    · rw [if_pos h1]
      omega
    · rw [if_neg h1]
      by_cases h2 : v > MAX_SAMPLING_RATE
      · rw [if_pos h2]
        omega
      · rw [if_neg h2]
        omega
  · intro cur v hv0 hv1
    simp only [safeSet]
    rw [if_neg (by omega), if_neg (by omega)]

/-- Witness for C10: the sampling update applied at a rejected payload,
and the clamp evaluated at concrete values. -/
theorem C10_witness :
    (_process initialState pMalformedDiag).store.samplingRates =
      updateSamplingRates initialState.samplingRates pMalformedDiag.diagnostics ∧
    safeSet 0 (some 5) = 5 :=
  ⟨C10_sampling_rates_updated_even_on_reject.1 initialState pMalformedDiag rfl,
   C10_sampling_rates_updated_even_on_reject.2.2.2 0 5 (by decide) (by decide)⟩

example : evaluate h0 gateSpec toreUser =
    { value := JVal.bool true, ruleID := "rule_id_gate" } := rfl

example : evaluate h0 gateSpec [] =
    { value := JVal.bool false, ruleID := "default" } := rfl

example : evaluate h0 gateSpec [("custom", JVal.obj [("email", JVal.str "tore@nfl.com")])] =
    { value := JVal.bool true, ruleID := "rule_id_gate" } := rfl

example : evaluate h0 gateSpec [("email", JVal.str "jkw@seahawks.com")] =
    { value := JVal.bool false, ruleID := "default" } := rfl

/-- C4 counterexample: the repository test's disabled gate, evaluated at
the test's matching user, returns the default value under rule id
"default" (as the test asserts), not "disabled". -/
theorem C4_counterexample :
    evaluate h0 disabledGateSpec toreUser =
      { value := JVal.bool false, ruleID := "default" } ∧
    ("default" : String) ≠ "disabled" :=
  ⟨rfl, by decide⟩

/-- C4 (amended): a disabled spec evaluates to its default value with
rule id "default" for every user and every hash, independently of its
rules (no rule is evaluated). -/
theorem C4_disabled_returns_default (h : String → Nat) (spec : ConfigSpec)
    (user : StatsigUser) (he : spec.enabled = false) :
    evaluate h spec user = { value := spec.defaultValue, ruleID := "default" } ∧
    (∀ rs : List Rule,
        evaluate h { spec with rules := rs } user =
          { value := spec.defaultValue, ruleID := "default" }) := by
  constructor
  · simp [evaluate, he]
  · intro rs
    simp [evaluate, he]

/-- Witness for C4's amended theorem at the repository test's disabled
gate. -/
theorem C4_witness :
    evaluate h0 disabledGateSpec toreUser =
      { value := disabledGateSpec.defaultValue, ruleID := "default" } :=
  (C4_disabled_returns_default h0 disabledGateSpec toreUser rfl).1

/-- C5: capture returns the task's value on success; Uninitialized,
InvalidArgument and TooManyRequests errors propagate unchanged; a
LocalModeNetwork error recovers silently with no telemetry; every other
error is logged, reported, and recovered via `recover`. -/
theorem C5_capture_contract :
    (∀ (α : Type) (v : α) (recover : ErrKind → α),
        capture (Except.ok v) recover =
          { result := Except.ok v, logged := false, reported := false }) ∧
    (∀ (α : Type) (e : ErrKind) (recover : ErrKind → α), propagates e = true →
        capture (Except.error e) recover =
          { result := Except.error e, logged := false, reported := false }) ∧
    (∀ (α : Type) (recover : ErrKind → α),
        capture (Except.error ErrKind.localModeNetwork) recover =
          { result := Except.ok (recover ErrKind.localModeNetwork),
            logged := false, reported := false }) ∧
    (∀ (α : Type) (name : String) (recover : ErrKind → α),
        capture (Except.error (ErrKind.other name)) recover =
          { result := Except.ok (recover (ErrKind.other name)),
            logged := true, reported := true }) := by
  refine ⟨fun α v r => rfl, ?_, fun α r => rfl, fun α n r => rfl⟩
  intro α e r hp
  simp [capture, onCaught, hp]

/-- Witness for C5 at a propagating error kind. -/
theorem C5_witness :
    capture (Except.error ErrKind.uninitialized) (fun _ => (0 : Nat)) =
      { result := Except.error ErrKind.uninitialized,
        logged := false, reported := false } :=
  C5_capture_contract.2.1 Nat ErrKind.uninitialized (fun _ => 0) rfl

/-- One `logError` call either changes nothing and posts nothing, or its
derived name was unseen, gets recorded, and one POST is made. -/
theorem logErrorStep_cases (sdkKey : String) (seen : List String) (c : LoggedCall) :
    logErrorStep sdkKey seen c = (seen, none) ∨
    (logErrorStep sdkKey seen c =
        (derivedName c :: seen, some { name := derivedName c, key := c.key }) ∧
      seen.contains (derivedName c) = false) := by
  by_cases h1 : (sdkKey == "") = true
  · left
    simp [logErrorStep, h1]
  · cases hk : c.key with
    | none =>
      by_cases h2 : seen.contains (derivedName c) = true
      · have h2m : derivedName c ∈ seen := by simpa using h2
        left
        simp [logErrorStep, h1, hk, h2m]
      · have h2m : derivedName c ∉ seen := by simpa using h2
        right
        refine ⟨?_, by simpa using h2⟩
        simp [logErrorStep, h1, hk, h2m]
    | some k =>
      by_cases h2 : seen.contains (derivedName c) = true
      · have h2m : derivedName c ∈ seen := by simpa using h2
        left
        simp [logErrorStep, h1, hk, h2m]
      · have h2m : derivedName c ∉ seen := by simpa using h2
        by_cases h3 : seen.contains k = true
        · have h3m : k ∈ seen := by simpa using h3
          left
          simp [logErrorStep, h1, hk, h2m, h3m]
        · have h3m : k ∉ seen := by simpa using h3
          right
          refine ⟨?_, by simpa using h2⟩
          simp [logErrorStep, h1, hk, h2m, h3m]

/-- Across a lifetime, the number of POSTs whose reported name is `n` is
at most one, and zero if `n` is already in the seen set. -/
theorem runLogErrors_count_le (sdkKey n : String) :
    ∀ (calls : List LoggedCall) (seen : List String),
      ((runLogErrors sdkKey seen calls).2.countP (fun p => p.name == n)) ≤
        (if seen.contains n then 0 else 1) := by
  intro calls
  induction calls with
  | nil =>
    intro seen
    simp [runLogErrors]
  | cons c rest ih =>
    intro seen
    rcases logErrorStep_cases sdkKey seen c with heq | ⟨heq, hnotin⟩
    · simp only [runLogErrors, heq]
      simpa using ih seen
    · simp only [runLogErrors, heq, List.singleton_append, List.countP_cons]
      by_cases hn : derivedName c = n
      · subst hn
        have hnotinm : derivedName c ∉ seen := by simpa using hnotin
        have htail := ih (derivedName c :: seen)
        simp only [List.contains_cons, beq_self_eq_true, Bool.true_or] at htail
        simp only [if_true, Nat.le_zero] at htail
        simp [htail, hnotinm]
      · have hbeq : (n == derivedName c) = false :=
          beq_eq_false_iff_ne.mpr (fun hh => hn hh.symm)
        have htail := ih (derivedName c :: seen)
        simp only [List.contains_cons, hbeq, Bool.false_or] at htail
        have hname :
            (({ name := derivedName c, key := c.key } : ExceptionPost).name == n) = false :=
          beq_eq_false_iff_ne.mpr hn
        simpa [hname] using htail

/-- C6 (amended): the exception reporter POSTs at most once per distinct
error name across a process lifetime (keys are never recorded in the
seen set, so the per-key part of the claim fails). -/
theorem C6_at_most_one_post_per_name (sdkKey n : String) (calls : List LoggedCall) :
    ((runLogErrors sdkKey [] calls).2.countP (fun p => p.name == n)) ≤ 1 := by
  have h := runLogErrors_count_le sdkKey n calls []
  simpa using h

/-- C6 counterexample: two calls with distinct error names but the same
explicit key both POST — two POSTs for one key, refuting the at most
one POST per distinct explicit key part of the claim. -/
theorem C6_counterexample :
    ((runLogErrors "secret-key" [] [callA, callB]).2.countP
        (fun p => p.key == some "K")) = 2 := by
  decide

/-- C7: on a malformed Content-Length header, `genFetchIDList` does not
delete the list entry as intended: `parseInt` gives NaN, the
`typeof length === 'number'` guard still holds, NaN is added to
`readBytes` (making it NaN, not a non-negative count) and the entry
stays; on a missing header the entry is likewise kept unchanged rather
than deleted. -/
theorem C7_malformed_content_length_keeps_entry_with_nan :
    genFetchIDListProcess idStore0 "list_1" (some "abc") "" =
      [("list_1",
        { ids := []
          readBytes := none
          url := "https://example.com/list_1"
          fileID := "file_1"
          creationTime := 1 })] ∧
    genFetchIDListProcess idStore0 "list_1" none "" = idStore0 ∧
    parseIntJS "abc" = none ∧
    typeofIsNumber (parseIntJS "abc") = true :=
  ⟨rfl, rfl, rfl, rfl⟩

/-- `_process` never touches `initReason`. -/
theorem process_initReason (st : SpecStoreState) (p : SpecsJSON) :
    (_process st p).store.initReason = st.initReason := by
  cases h : p.has_updates with
  | false => rw [process_no_updates st p h]
  | true =>
    cases hfg : p.feature_gates with
    | none => simp [_process, h, hfg]
    | some gs =>
      cases hdc : p.dynamic_configs with
      | none => simp [_process, h, hfg, hdc]
      | some cs =>
        cases hlc : p.layer_configs with
        | none => simp [_process, h, hfg, hdc, hlc]
        | some ls =>
          cases hbg : buildSpecMap [] gs with
          | error u => simp [_process, h, hfg, hdc, hlc, hbg]
          | ok gm =>
            cases hbc : buildSpecMap [] cs with
            | error u => simp [_process, h, hfg, hdc, hlc, hbg, hbc]
            | ok cm =>
              cases hbl : buildSpecMap [] ls with
              | error u => simp [_process, h, hfg, hdc, hlc, hbg, hbc, hbl]
              | ok lm => simp [_process, h, hfg, hdc, hlc, hbg, hbc, hbl]

/-- The adapter fetch leaves `initReason` alone or sets it to
DataAdapter. -/
theorem fetchAdapter_initReason_or (st : SpecStoreState) (r : Option SpecsJSON) :
    (fetchConfigSpecsFromAdapter st r).1.initReason = st.initReason ∨
    (fetchConfigSpecsFromAdapter st r).1.initReason = "DataAdapter" := by
  cases r with
  | none => left; rfl
  | some q =>
    by_cases hs : (_process st q).success = true
    · right
      simp [fetchConfigSpecsFromAdapter, hs]
    · left
      simp [fetchConfigSpecsFromAdapter, hs, process_initReason]

/-- A synced adapter fetch always sets `initReason` to DataAdapter. -/
theorem fetchAdapter_synced_initReason (st : SpecStoreState) (r : Option SpecsJSON)
    (h : (fetchConfigSpecsFromAdapter st r).2 = true) :
    (fetchConfigSpecsFromAdapter st r).1.initReason = "DataAdapter" := by
  cases r with
  | none => simp [fetchConfigSpecsFromAdapter] at h
  | some q =>
    by_cases hs : (_process st q).success = true
    · simp [fetchConfigSpecsFromAdapter, hs]
    · simp [fetchConfigSpecsFromAdapter, hs] at h

/-- The network fetch leaves `initReason` alone or sets it to Network. -/
theorem fetchServer_initReason_or (st : SpecStoreState) (r : Option SpecsJSON) :
    (fetchConfigSpecsFromServer st r).1.initReason = st.initReason ∨
    (fetchConfigSpecsFromServer st r).1.initReason = "Network" := by
  cases r with
  | none => left; rfl
  | some q =>
    by_cases hs : (_process st q).success = true
    · right
      simp [fetchConfigSpecsFromServer, hs]
    · left
      simp [fetchConfigSpecsFromServer, hs, process_initReason]

/-- The bootstrap step leaves `initReason` alone or sets it to
Bootstrap. -/
theorem bootstrapStep_initReason_or (st : SpecStoreState) (bp : Option SpecsJSON) :
    (bootstrapStep st bp).initReason = st.initReason ∨
    (bootstrapStep st bp).initReason = "Bootstrap" := by
  cases bp with
  | none => left; rfl
  | some q =>
    by_cases hl : (_process st q).store.lastUpdateTime ≠ 0
    · right
      simp [bootstrapStep, hl]
    · left
      simp [bootstrapStep, hl, process_initReason]

/-- One sync tick leaves `initReason` alone or sets it to the source it
synced from. -/
theorem syncConfigSpecs_initReason_or (st : SpecStoreState) (b : Bool)
    (p : Option SpecsJSON) :
    (syncConfigSpecs st b p).initReason = st.initReason ∨
    (b = true ∧ (syncConfigSpecs st b p).initReason = "DataAdapter") ∨
    (b = false ∧ (syncConfigSpecs st b p).initReason = "Network") := by
  cases b with
  | true =>
    rcases fetchAdapter_initReason_or st p with he | he
    · left
      simpa [syncConfigSpecs] using he
    · right; left
      exact ⟨rfl, by simpa [syncConfigSpecs] using he⟩
  | false =>
    rcases fetchServer_initReason_or st p with he | he
    · left
      simpa [syncConfigSpecs] using he
    · right; right
      exact ⟨rfl, by simpa [syncConfigSpecs] using he⟩

/-- Membership in the valid reason set survives an or-step. -/
theorem mem_validInitReasons_step {s t alt : String}
    (h : s = t ∨ s = alt) (ht : t ∈ validInitReasons)
    (halt : alt ∈ validInitReasons) : s ∈ validInitReasons := by
  rcases h with rfl | rfl <;> assumption

/-- Each phase of init keeps `initReason` in the valid set. -/
theorem initStore_initReason_mem (st0 : SpecStoreState) (inp : InitInputs)
    (h0 : st0.initReason ∈ validInitReasons) :
    (initStore st0 inp).initReason ∈ validInitReasons := by
  have hDA : ("DataAdapter" : String) ∈ validInitReasons := by simp [validInitReasons]
  have hB : ("Bootstrap" : String) ∈ validInitReasons := by simp [validInitReasons]
  have hN : ("Network" : String) ∈ validInitReasons := by simp [validInitReasons]
  have h1 : (initAdapterPhase st0 inp).initReason ∈ validInitReasons := by
    cases hA : inp.hasAdapter with
    | false => simpa [initAdapterPhase, hA] using h0
    | true =>
      simp only [initAdapterPhase, hA, if_true]
      exact mem_validInitReasons_step (fetchAdapter_initReason_or st0 inp.adapterResult)
        h0 hDA
  have h2 : (initBootstrapPhase (initAdapterPhase st0 inp) inp).initReason ∈
      validInitReasons := by
    by_cases hu : ((initAdapterPhase st0 inp).initReason == "Uninitialized") = true
    · cases hbp : inp.bootstrapParsed with
      | none => simpa [initBootstrapPhase, hu, hbp] using h1
      | some bp =>
        simp only [initBootstrapPhase, hu, hbp, if_true]
        exact mem_validInitReasons_step
          (bootstrapStep_initReason_or (initAdapterPhase st0 inp) bp) h1 hB
    · simpa [initBootstrapPhase, hu] using h1
  by_cases hu : ((initBootstrapPhase (initAdapterPhase st0 inp) inp).initReason ==
      "Uninitialized") = true
  · simp only [initStore, initNetworkPhase, hu, if_true]
    exact mem_validInitReasons_step
      (fetchServer_initReason_or (initBootstrapPhase (initAdapterPhase st0 inp) inp)
        inp.networkResult) h2 hN
  · simpa [initStore, initNetworkPhase, hu] using h2

/-- Every post-init event keeps `initReason` in the valid set. -/
theorem applyEvents_initReason_mem (evs : List StoreEvent) :
    ∀ st : SpecStoreState, st.initReason ∈ validInitReasons →
      (applyEvents st evs).initReason ∈ validInitReasons := by
  induction evs with
  | nil => intro st h; simpa [applyEvents] using h
  | cons e rest ih =>
    intro st h
    have hstep : (applyEvent st e).initReason ∈ validInitReasons := by
      cases e with
      | syncConfig b p =>
        rcases syncConfigSpecs_initReason_or st b p with he | ⟨_, he⟩ | ⟨_, he⟩
        · simpa [applyEvent, he] using h
        · simp [applyEvent, he, validInitReasons]
        · simp [applyEvent, he, validInitReasons]
    have : applyEvents st (e :: rest) = applyEvents (applyEvent st e) rest := rfl
    rw [this]
    exact ih (applyEvent st e) hstep

/-- C8 counterexample: a store initialized over the network has
`initReason = "Network"`; one post-init adapter polling sync (the adapter
advertises polling support) changes it to "DataAdapter" — an operation
other than a successful network sync modified it, refuting the claim. -/
theorem C8_counterexample :
    (initStore initialState inpNetworkOnly).initReason = "Network" ∧
    (applyEvents (initStore initialState inpNetworkOnly)
        [StoreEvent.syncConfig true (some (pEmptyValid 100))]).initReason =
      "DataAdapter" ∧
    ("DataAdapter" : String) ≠ "Network" :=
  ⟨rfl, rfl, by decide⟩

/-- C8 (amended): `initReason` always stays in the four-value set; init
prefers the adapter source; after init every sync tick either preserves
it or sets it to the source that synced — "Network" for a network sync,
"DataAdapter" for an adapter polling sync. -/
theorem C8_initReason_lifecycle :
    (∀ (inp : InitInputs) (evs : List StoreEvent),
        (applyEvents (initStore initialState inp) evs).initReason ∈
          validInitReasons) ∧
    (∀ (st : SpecStoreState) (b : Bool) (p : Option SpecsJSON),
        (syncConfigSpecs st b p).initReason = st.initReason ∨
        (b = true ∧ (syncConfigSpecs st b p).initReason = "DataAdapter") ∨
        (b = false ∧ (syncConfigSpecs st b p).initReason = "Network")) ∧
    (∀ inp : InitInputs, inp.hasAdapter = true →
        (fetchConfigSpecsFromAdapter initialState inp.adapterResult).2 = true →
        (initStore initialState inp).initReason = "DataAdapter") := by
  refine ⟨?_, syncConfigSpecs_initReason_or, ?_⟩
  · intro inp evs
    exact applyEvents_initReason_mem evs (initStore initialState inp)
      (initStore_initReason_mem initialState inp (by simp [initialState, validInitReasons]))
  · intro inp ha hs
    have h1 : (initAdapterPhase initialState inp).initReason = "DataAdapter" := by
      simp only [initAdapterPhase, ha, if_true]
      exact fetchAdapter_synced_initReason initialState inp.adapterResult hs
    have hne : (("DataAdapter" : String) == "Uninitialized") = false := by decide
    have h2 : initBootstrapPhase (initAdapterPhase initialState inp) inp =
        initAdapterPhase initialState inp := by
      simp [initBootstrapPhase, h1, hne]
    show (initNetworkPhase (initBootstrapPhase (initAdapterPhase initialState inp) inp)
        inp).initReason = "DataAdapter"
    rw [h2]
    simp [initNetworkPhase, h1, hne]

/-- Witness for C8's amended theorem: init with a succeeding adapter
lands on DataAdapter. -/
theorem C8_witness :
    (initStore initialState inpAdapterOnly).initReason = "DataAdapter" :=
  C8_initReason_lifecycle.2.2 inpAdapterOnly rfl rfl

/-- C9: the watchdog returns null exactly when both loops' last-active
timestamps are within `max(120000, period)` of now (then nothing
changes); otherwise every dead timer is cleared and recreated with its
last-active time set to now, both timers end up scheduled, and the
returned error message is the concatenation of the fragment for each
timer that was reset. -/
theorem C9_watchdog_spec (st : TimerState) (now : Int) :
    ((resetSyncTimerIfExited st now).2 = none ↔
      (now - max SYNC_OUTDATED_MAX st.rulesetsSyncInterval ≤
          st.rulesetsSyncTimerLastActiveTime ∧
        now - max SYNC_OUTDATED_MAX st.idListsSyncInterval ≤
          st.idListsSyncTimerLastActiveTime)) ∧
    ((resetSyncTimerIfExited st now).2 = none →
      (resetSyncTimerIfExited st now).1 = st) ∧
    ((resetSyncTimerIfExited st now).2 ≠ none →
      (resetSyncTimerIfExited st now).1.rulesetsSyncTimer = true ∧
      (resetSyncTimerIfExited st now).1.idListsSyncTimer = true ∧
      (rulesetsInactive st now = true →
        (resetSyncTimerIfExited st now).1.rulesetsSyncTimerLastActiveTime = now) ∧
      (idListsInactive st now = true →
        (resetSyncTimerIfExited st now).1.idListsSyncTimerLastActiveTime = now) ∧
      (resetSyncTimerIfExited st now).2 =
        some ((if rulesetsInactive st now then resetMsgRulesets st now else "") ++
              (if idListsInactive st now then resetMsgIdLists st now else ""))) := by
  by_cases hr : rulesetsInactive st now = true <;>
    by_cases hi : idListsInactive st now = true
  · have hr' : st.rulesetsSyncTimerLastActiveTime <
        now - max SYNC_OUTDATED_MAX st.rulesetsSyncInterval := by
      simpa [rulesetsInactive] using hr
    refine ⟨?_, ?_, ?_⟩
    · simp only [resetSyncTimerIfExited, hr, hi]
      constructor
      · intro h
        simp at h
      · intro ⟨h1, _⟩
        omega
    · intro h
      simp only [resetSyncTimerIfExited, hr, hi] at h
      simp at h
    · intro _
      by_cases ht : st.idListsSyncTimer = true <;>
        simp [resetSyncTimerIfExited, hr, hi, clearRulesetsSyncTimer,
          clearIdListsSyncTimer, pollForUpdates, ht]
  · have hr' : st.rulesetsSyncTimerLastActiveTime <
        now - max SYNC_OUTDATED_MAX st.rulesetsSyncInterval := by
      simpa [rulesetsInactive] using hr
    refine ⟨?_, ?_, ?_⟩
    · simp only [resetSyncTimerIfExited, hr, hi]
      constructor
      · intro h
        simp at h
      · intro ⟨h1, _⟩
        omega
    · intro h
      simp only [resetSyncTimerIfExited, hr, hi] at h
      simp at h
    · intro _
      by_cases ht : st.idListsSyncTimer = true <;>
        simp [resetSyncTimerIfExited, hr, hi, clearRulesetsSyncTimer,
          clearIdListsSyncTimer, pollForUpdates, ht]
  · have hi' : st.idListsSyncTimerLastActiveTime <
        now - max SYNC_OUTDATED_MAX st.idListsSyncInterval := by
      simpa [idListsInactive] using hi
    refine ⟨?_, ?_, ?_⟩
    · simp only [resetSyncTimerIfExited, hr, hi]
      constructor
      · intro h
        simp at h
      · intro ⟨_, h2⟩
        omega
    · intro h
      simp only [resetSyncTimerIfExited, hr, hi] at h
      simp at h
    · intro _
      by_cases ht : st.rulesetsSyncTimer = true <;>
        simp [resetSyncTimerIfExited, hr, hi, clearRulesetsSyncTimer,
          clearIdListsSyncTimer, pollForUpdates, ht]
  · have hr' : now - max SYNC_OUTDATED_MAX st.rulesetsSyncInterval ≤
        st.rulesetsSyncTimerLastActiveTime := by
      have := (Bool.not_eq_true _).mp hr
      simpa [rulesetsInactive, not_lt] using this
    have hi' : now - max SYNC_OUTDATED_MAX st.idListsSyncInterval ≤
        st.idListsSyncTimerLastActiveTime := by
      have := (Bool.not_eq_true _).mp hi
      simpa [idListsInactive, not_lt] using this
    refine ⟨?_, ?_, ?_⟩
    · simp only [resetSyncTimerIfExited, hr, hi]
      simp [hr', hi']
    · intro _
      simp [resetSyncTimerIfExited, hr, hi]
    · intro h
      simp only [resetSyncTimerIfExited, hr, hi] at h
      simp at h

/-- Witness for C9 at a live concrete timer state. -/
theorem C9_witness :
    (resetSyncTimerIfExited stWatchdogLive 1000).2 = none :=
  (C9_watchdog_spec stWatchdogLive 1000).1.mpr ⟨by decide, by decide⟩
